import Mathlib

/-!
Verification of the MCP OAuth2 connector server (Python/FastAPI) against its
natural-language specification.  The development shallowly embeds the relevant
source modules:

* `src/datakwip_mcp/auth/cognito.py`      — JWT validation (`validate_cognito_token`)
* `src/datakwip_mcp/tools/base.py`        — argument validation / `safe_execute`
* `src/datakwip_mcp/tools/add.py`         — the `add` tool
* `src/datakwip_mcp/tools/echo.py`        — the `echo` tool
* `src/datakwip_mcp/tools/registry.py`    — tool registry
* `src/datakwip_mcp/main.py`              — the `/mcp` dispatcher and envelope
* `src/datakwip_mcp/middleware/rate_limiting.py` — client-key derivation
* `src/datakwip_mcp/middleware/security.py`      — security-header middleware

Python values that flow through tool arguments and JSON bodies are modelled by
the inductive `PyVal` (floats are not modelled: no claim involves a float
argument; `bool` is kept distinct from `int` but the isinstance-style tests
below record that a Python `bool` IS an instance of `int`).
-/

namespace MCPServer

/-- Model of the Python/JSON values handled by the server: `None`, booleans,
integers, strings, lists and (insertion-ordered) dicts. -/
inductive PyVal where
  | none
  | bool (b : Bool)
  | int (n : Int)
  | str (s : String)
  | list (xs : List PyVal)
  | dict (xs : List (String × PyVal))

/-- Association-list lookup, modelling Python `dict.get(key)` on an
insertion-ordered dict represented as a key/value list. -/
def lookupKey (xs : List (String × PyVal)) (k : String) : Option PyVal :=
  (xs.find? (fun p => p.1 = k)).map (fun p => p.2)

/-- `v.get(k)` when `v` is a dict; `none` otherwise. -/
def dictGet (v : PyVal) (k : String) : Option PyVal :=
  match v with
  | .dict xs => lookupKey xs k
  | _ => Option.none

/-- Python truthiness of a value (`if v:`). -/
def pyTruthy : PyVal → Bool
  | .none => false
  | .bool b => b
  | .int n => n != 0
  | .str s => s ≠ ""
  | .list xs => !xs.isEmpty
  | .dict xs => !xs.isEmpty

/-- Python `str(v)` for the scalar values the claims exercise.  Container
reprs are abbreviated (no claim formats a container into a string). -/
def pyStr : PyVal → String
  | .none => "None"
  | .bool b => if b then "True" else "False"
  | .int n => toString n
  | .str s => s
  | .list _ => "[...]"
  | .dict _ => "\x7b...\x7d"

/-- `isinstance(v, str)`. -/
def pyIsStr : PyVal → Bool
  | .str _ => true
  | _ => false

/-- `isinstance(v, bool)`. -/
def pyIsBool : PyVal → Bool
  | .bool _ => true
  | _ => false

/-- `isinstance(v, int)` — in Python `bool` is a subclass of `int`, so boolean
values satisfy this test. -/
def pyIsInt : PyVal → Bool
  | .int _ => true
  | .bool _ => true
  | _ => false

/-- `isinstance(v, (int, float))` — the "number" test used both by schema
validation (`base.py` line 132) and by the add tool's own guard
(`add.py` line 71).  Booleans pass, being instances of `int`.
(Floats are outside the modelled value universe.) -/
def pyIsNumber : PyVal → Bool
  | .int _ => true
  | .bool _ => true
  | _ => false

/-- Numeric value of a modelled Python number (`True` counts as 1, `False`
as 0, exactly as in Python integer arithmetic). -/
def pyToInt : PyVal → Int
  | .int n => n
  | .bool b => if b then 1 else 0
  | _ => 0

/-- Python `a + b` on modelled numbers: a `bool` promotes to `int`, so the
result of adding any two modelled numbers is an `int`. -/
def pyAdd (a b : PyVal) : PyVal := .int (pyToInt a + pyToInt b)

/-! ## Token verification (`auth/cognito.py`, `validate_cognito_token`)

The network portions (JWKS fetch, key matching) precede the claim-relevant
logic and are abstracted: `sigOk` stands for the result of the RS256
signature check against the matched JWKS key.  The claim checks performed by
the external PyJWT library inside `jwt.decode` (lines 120–133) are modelled
from PyJWT's documented behaviour: `verify_exp`/`verify_nbf` compare the
numeric claims against the current time with no leeway, the issuer must equal
the expected value exactly, and the audience is validated only when
`verify_aud` is passed as true — which `cognito.py` computes as
`"aud" in payload` (line 117). -/

/-- Cognito configuration slice consumed by `validate_cognito_token`
(`cognito_config` dict): `client_id` is read with `.get` and may be absent. -/
structure CognitoConfig where
  region : String
  user_pool_id : String
  client_id : Option String
deriving Repr, DecidableEq

/-- Decoded token payload fields read by `validate_cognito_token`.  Every
field is optional, mirroring `payload.get(...)` access on a JSON object. -/
structure TokenClaims where
  aud : Option String
  iss : Option String
  exp : Option Int
  nbf : Option Int
  iat : Option Int
  token_use : Option String
  scope : Option String
  sub : Option String
deriving Repr, DecidableEq

/-- The two exception kinds `validate_cognito_token` lets escape:
`jwt.ExpiredSignatureError` (re-raised as-is at line 135–137) and
`jwt.InvalidTokenError` carrying a message. -/
inductive TokenError where
  | expiredSignature
  | invalidToken (msg : String)
deriving Repr, DecidableEq

/-- `cognito.py` line 112: the expected issuer string. -/
def expectedIssuer (cfg : CognitoConfig) : String :=
  "https://cognito-idp." ++ cfg.region ++ ".amazonaws.com/" ++ cfg.user_pool_id

/-- Model of the `jwt.decode(...)` call of `cognito.py` lines 114–140,
including the wrapping of PyJWT claim errors into
`InvalidTokenError("Token validation failed: ...")` (line 140) and the
verbatim re-raise of `ExpiredSignatureError`.  `verify_aud` is true exactly
when the payload contains an `aud` claim; the audience parameter passed to
the library is `cognito_config.get("client_id")` in that case. -/
def decodeStep (c : TokenClaims) (sigOk : Bool) (cfg : CognitoConfig) (now : Int) :
    Except TokenError TokenClaims :=
  if !sigOk then
    .error (.invalidToken "Token validation failed: Signature verification failed")
  else if (match c.nbf with | some n => decide (now < n) | Option.none => false) then
    .error (.invalidToken "Token validation failed: The token is not yet valid (nbf)")
  else if (match c.exp with | some e => decide (e ≤ now) | Option.none => false) then
    .error .expiredSignature
  else if c.iss ≠ some (expectedIssuer cfg) then
    .error (.invalidToken "Token validation failed: Invalid issuer")
  else
    match c.aud with
    | Option.none => .ok c
    | some a =>
      match cfg.client_id with
      | some cid =>
        if a = cid then .ok c
        else .error (.invalidToken "Token validation failed: Invalid audience")
      | Option.none => .error (.invalidToken "Token validation failed: Invalid audience")

/-- The four failure causes of the post-decode policy block
(`cognito.py` lines 143–169), in source order. -/
inductive PolicyError where
  | invalidTokenUse
  | insufficientScope
  | missingSubject
  | tokenTooOld
deriving Repr, DecidableEq

/-- The ASCII whitespace set stripped/split by Python `str.strip()` and
`str.split()`. -/
def isPySpace (c : Char) : Bool :=
  c = ' ' || c = '\t' || c = '\n' || c = '\r' || c = '\x0b' || c = '\x0c'

/-- Python `s.strip()`: drop leading and trailing whitespace. -/
def pyStrip (s : String) : String :=
  String.mk (((s.toList.dropWhile isPySpace).reverse.dropWhile isPySpace).reverse)

/-- Splitting a character list on whitespace runs, dropping empty pieces
(`acc` holds the current word reversed). -/
def splitWsAux : List Char → List Char → List String
  | [], acc => if acc.isEmpty then [] else [String.mk acc.reverse]
  | c :: cs, acc =>
    if isPySpace c then
      if acc.isEmpty then splitWsAux cs [] else String.mk acc.reverse :: splitWsAux cs []
    else splitWsAux cs (c :: acc)

/-- Python `s.split()`: split on whitespace runs, dropping empty pieces. -/
def pySplitWs (s : String) : List String :=
  splitWsAux s.toList []

/-- Line 145–146: `token_use not in ["id", "access"]` (negated). -/
def token_use_ok (p : TokenClaims) : Bool :=
  p.token_use == some "id" || p.token_use == some "access"

/-- Line 153: required scopes absent from the space-delimited `scope` claim. -/
def missing_scopes (p : TokenClaims) (required : List String) : List String :=
  required.filter (fun s => !(pySplitWs (p.scope.getD "")).contains s)

/-- Line 151–154: the insufficient-scope condition (`required_scopes` truthy,
access token, and some required scope missing). -/
def scope_insufficient (p : TokenClaims) (required : List String) : Bool :=
  !required.isEmpty && p.token_use == some "access" && !(missing_scopes p required).isEmpty

/-- Line 159: `not payload.get("sub")` — absent or empty subject is falsy. -/
def sub_falsy (p : TokenClaims) : Bool :=
  match p.sub with
  | some s => s = ""
  | Option.none => true

/-- Lines 163–167: `current_time - payload.get("iat", 0) > 3600 * 24`. -/
def too_old (p : TokenClaims) (now : Int) : Bool :=
  now - p.iat.getD 0 > 86400

/-- The post-decode policy checks of lines 143–169, each raising a distinct
`InvalidTokenError` internally, in source order. -/
def securityChecks (p : TokenClaims) (required_scopes : List String) (now : Int) :
    Except PolicyError TokenClaims :=
  if !token_use_ok p then .error .invalidTokenUse
  else if scope_insufficient p required_scopes then .error .insufficientScope
  else if sub_falsy p then .error .missingSubject
  else if too_old p now then .error .tokenTooOld
  else .ok p

/-- Lines 177–179: the `except Exception` handler wrapping every policy
failure into the single generic
`InvalidTokenError("Token security validation failed")`. -/
def wrapPolicy : Except PolicyError TokenClaims → Except TokenError TokenClaims
  | .ok p => .ok p
  | .error _ => .error (.invalidToken "Token security validation failed")

/-- `validate_cognito_token` from the decode step onward: decode/claim
validation (lines 114–140) followed by the wrapped policy checks
(lines 143–179). -/
def validate_cognito_token (c : TokenClaims) (sigOk : Bool) (cfg : CognitoConfig)
    (required_scopes : List String) (now : Int) : Except TokenError TokenClaims :=
  match decodeStep c sigOk cfg now with
  | .error e => .error e
  | .ok p => wrapPolicy (securityChecks p required_scopes now)

/-- A configuration with a configured client id, used for concrete checks. -/
def cfg0 : CognitoConfig :=
  { region := "us-east-1", user_pool_id := "us-east-1_Example", client_id := some "client123" }

/-- A token without an `aud` claim whose other claims are all valid at
time 1000. -/
def noAudToken : TokenClaims :=
  { aud := Option.none, iss := some (expectedIssuer cfg0), exp := some 5000,
    nbf := Option.none, iat := some 900, token_use := some "access",
    scope := some "openid", sub := some "user-1" }

/-! ## Tools (`tools/base.py`, `tools/add.py`, `tools/echo.py`) -/

/-- One entry of a tool result's `content` list — always a
`{"type": "text", "text": ...}` dict in this code base. -/
structure ContentItem where
  type : String
  text : String
deriving Repr, DecidableEq

/-- `ToolResult` of `tools/base.py`. -/
structure ToolResult where
  content : List ContentItem
  isError : Bool
deriving Repr, DecidableEq

/-- The ubiquitous `[{"type": "text", "text": s}]` content list. -/
def textContent (s : String) : List ContentItem :=
  [{ type := "text", text := s }]

/-- `base.py` lines 113–115: `schema.get("required", [])`, keeping the string
entries (the field names; both concrete schemas list only strings here). -/
def requiredNames (schema : PyVal) : List String :=
  match dictGet schema "required" with
  | some (.list xs) => xs.filterMap (fun v => match v with | .str s => some s | _ => Option.none)
  | _ => []

/-- `schema.get("properties", {})`. -/
def propertiesOf (schema : PyVal) : List (String × PyVal) :=
  match dictGet schema "properties" with
  | some (.dict xs) => xs
  | _ => []

/-- `field_schema.get("type") == t` — true only when the `type` entry is that
exact string. -/
def expectedTypeIs (fs : PyVal) (t : String) : Bool :=
  match dictGet fs "type" with
  | some (.str u) => u = t
  | _ => false

/-- `base.py` lines 124–143, per field: a field whose name appears in
`properties` is type-checked against the declared primitive type (the
`if/elif` chain of lines 130–137); a field not in `properties` is only
logged and never rejected.  Returns the `ValueError` message, if any. -/
def fieldError (props : List (String × PyVal)) (k : String) (v : PyVal) : Option String :=
  match lookupKey props k with
  | Option.none => Option.none
  | some fs =>
    if expectedTypeIs fs "string" && !pyIsStr v then
      some ("Field \x27" ++ k ++ "\x27 must be a string")
    else if expectedTypeIs fs "number" && !pyIsNumber v then
      some ("Field \x27" ++ k ++ "\x27 must be a number")
    else if expectedTypeIs fs "integer" && !pyIsInt v then
      some ("Field \x27" ++ k ++ "\x27 must be an integer")
    else if expectedTypeIs fs "boolean" && !pyIsBool v then
      some ("Field \x27" ++ k ++ "\x27 must be a boolean")
    else Option.none

/-- The `for field_name, field_value in arguments.items()` loop of
`base.py` lines 123–143: fields are checked in order; the first failing field
raises; otherwise every field — known or unknown — is copied into
`validated_args` unchanged. -/
def checkFields (props : List (String × PyVal)) :
    List (String × PyVal) → Except String (List (String × PyVal))
  | [] => .ok []
  | (k, v) :: rest =>
    match fieldError props k v with
    | some e => .error e
    | Option.none =>
      match checkFields props rest with
      | .error e => .error e
      | .ok tl => .ok ((k, v) :: tl)

/-- `BaseTool.validate_arguments` (`base.py` lines 100–145): missing required
fields raise first; then each argument field is type-checked as above. -/
def validate_arguments (schema : PyVal) (args : List (String × PyVal)) :
    Except String (List (String × PyVal)) :=
  let missing := (requiredNames schema).filter (fun f => (lookupKey args f).isNone)
  if !missing.isEmpty then
    .error ("Missing required fields: [" ++
      String.intercalate ", " (missing.map (fun s => "\x27" ++ s ++ "\x27")) ++ "]")
  else checkFields (propertiesOf schema) args

/-- A registered tool: name, description, input schema (the Python dict
literal) and handler.  The modelled handlers are total, mirroring that the
concrete `execute` bodies return a `ToolResult` on every modelled input. -/
structure Tool where
  name : String
  description : String
  input_schema : PyVal
  execute : List (String × PyVal) → ToolResult

/-- The `add` tool's `input_schema` property (`add.py` lines 37–54).  Python's
`-1e10`/`1e10` float literals denote exactly ∓10^10; these bound entries are
never read by `validate_arguments` (which only reads `"type"`). -/
def add_input_schema : PyVal :=
  .dict [("type", .str "object"),
    ("properties", .dict [
      ("a", .dict [("type", .str "number"), ("description", .str "First number to add"),
        ("minimum", .int (-10000000000)), ("maximum", .int 10000000000)]),
      ("b", .dict [("type", .str "number"), ("description", .str "Second number to add"),
        ("minimum", .int (-10000000000)), ("maximum", .int 10000000000)])]),
    ("required", .list [.str "a", .str "b"])]

/-- `AddTool.execute` (`add.py` lines 56–115): defaulted lookups, the
isinstance number guard, the ±1e10 magnitude guard, then the formatted sum.
The inner `try` never raises on modelled numbers, so the final `except`
branch is unreachable and not modelled. -/
def addExecute (args : List (String × PyVal)) : ToolResult :=
  let a := (lookupKey args "a").getD (.int 0)
  let b := (lookupKey args "b").getD (.int 0)
  if !pyIsNumber a || !pyIsNumber b then
    { content := textContent "Error: Both \x27a\x27 and \x27b\x27 must be numbers",
      isError := true }
  else if (pyToInt a).natAbs > 10000000000 || (pyToInt b).natAbs > 10000000000 then
    { content := textContent "Error: Numbers too large (maximum absolute value: 10,000,000,000)",
      isError := true }
  else
    { content := textContent (pyStr a ++ " + " ++ pyStr b ++ " = " ++ pyStr (pyAdd a b)),
      isError := false }

/-- The `echo` tool's `input_schema` property (`echo.py` lines 37–49). -/
def echo_input_schema : PyVal :=
  .dict [("type", .str "object"),
    ("properties", .dict [
      ("message", .dict [("type", .str "string"),
        ("description", .str "The message to echo back"), ("maxLength", .int 1000)])]),
    ("required", .list [.str "message"])]

/-- `EchoTool.execute` (`echo.py` lines 51–86).  A non-string `message` cannot
reach this handler through `safe_execute` (the schema types it as string), so
only the string case is modelled. -/
def echoExecute (args : List (String × PyVal)) : ToolResult :=
  let message := match lookupKey args "message" with | some (.str s) => s | _ => ""
  if message.length > 1000 then
    { content := textContent "Error: Message too long (maximum 1000 characters)", isError := true }
  else
    { content := textContent ("Echo: " ++ message), isError := false }

def addTool : Tool :=
  { name := "add", description := "Add two numbers together",
    input_schema := add_input_schema, execute := addExecute }

def echoTool : Tool :=
  { name := "echo", description := "Echo back the provided message",
    input_schema := echo_input_schema, execute := echoExecute }

/-- `BaseTool.safe_execute` (`base.py` lines 147–191): validation failures are
caught and turned into an error-flagged result; otherwise the tool runs.  The
function is total — no exception escapes to the caller (the `except Exception`
arm has no modelled trigger since the handlers are total). -/
def safe_execute (t : Tool) (args : List (String × PyVal)) : ToolResult :=
  match validate_arguments t.input_schema args with
  | .error e => { content := textContent ("Validation error: " ++ e), isError := true }
  | .ok v => t.execute v

/-! ## Tool registry (`tools/registry.py`) -/

/-- `_register_default_tools` (`registry.py` lines 37–47): echo then add. -/
def registryTools : List Tool := [echoTool, addTool]

/-- `ToolRegistry.get_tool`: `self._tools.get(tool_name)`. -/
def get_tool (tool_name : String) : Option Tool :=
  registryTools.find? (fun t => t.name = tool_name)

/-- `ToolRegistry.execute_tool` (`registry.py` lines 130–149): unknown names
raise `ValueError("Tool not found: ...")`, modelled as `.error`; otherwise the
tool's `safe_execute` result is returned. -/
def execute_tool (tool_name : String) (args : List (String × PyVal)) :
    Except String ToolResult :=
  match get_tool tool_name with
  | Option.none => .error ("Tool not found: " ++ tool_name)
  | some t => .ok (safe_execute t args)

/-! ## RPC envelope and `/mcp` dispatcher (`main.py`) -/

/-- The parsed `MCPRequest` body (`main.py` lines 101–105).  `params` is
modelled as the dict case (the default `{}` and every claim input); `id` is
any JSON value or absent. -/
structure MCPRequestM where
  method : String
  params : List (String × PyVal)
  id : Option PyVal

/-- The `MCPResponse` pydantic model (`main.py` lines 108–112): all of
`result`, `error` and `id` are `Optional` and default to `None`. -/
structure MCPResponseM where
  jsonrpc : String
  result : Option PyVal
  error : Option PyVal
  id : Option PyVal

/-- `response.model_dump_json()`: pydantic serializes every field in
declaration order, emitting `null` for `None` values (the default dump does
not exclude `None`).  The body is modelled as the ordered key/value list of
the serialized JSON object. -/
def model_dump (r : MCPResponseM) : List (String × PyVal) :=
  [("jsonrpc", .str r.jsonrpc), ("result", r.result.getD .none),
   ("error", r.error.getD .none), ("id", r.id.getD .none)]

/-- A `fastapi.Response` as built by the `/mcp` POST handler: status code,
the explicitly set headers, and the envelope whose `model_dump_json` is the
body. -/
structure HttpResponse where
  status_code : Nat
  headers : List (String × String)
  envelope : MCPResponseM

/-- Every `Response(...)` in `mcp_handler` sets exactly this header dict. -/
def protoHeader : List (String × String) := [("MCP-Protocol-Version", "2025-06-18")]

/-- The `initialize` result object (`main.py` lines 275–292). -/
def initializeResult : PyVal :=
  .dict [("protocolVersion", .str "2025-06-18"),
    ("capabilities", .dict [("tools", .dict [("listChanged", .bool true)]),
      ("prompts", .dict []), ("resources", .dict [])]),
    ("serverInfo", .dict [("name", .str "Secure MCP Server with AWS Cognito OAuth2"),
      ("version", .str "1.0.0")])]

/-- Serialization of a tool result's `content` list. -/
def contentJson (c : List ContentItem) : PyVal :=
  .list (c.map (fun i => .dict [("type", .str i.type), ("text", .str i.text)]))

/-- `tool.dict()` of the `ToolDefinition` built by `BaseTool.get_definition`
(`base.py` lines 87–98): name, description and the `ToolSchema` fields
`type`/`properties`/`required` drawn from the tool's `input_schema`. -/
def toolDefJson (t : Tool) : PyVal :=
  .dict [("name", .str t.name), ("description", .str t.description),
    ("inputSchema", .dict [("type", (dictGet t.input_schema "type").getD (.str "object")),
      ("properties", (dictGet t.input_schema "properties").getD (.dict [])),
      ("required", (dictGet t.input_schema "required").getD (.list []))])]

/-- `str(tool_name)` used in the `Unknown tool: {tool_name}` message. -/
def pyStrOpt : Option PyVal → String
  | Option.none => "None"
  | some v => pyStr v

/-- The `tools/call` branch of `mcp_handler` (`main.py` lines 361–393):
`params.get("name")` and `params.get("arguments", {})` are read, the registry
is consulted, and the registry's unknown-tool `ValueError` is caught and
mapped to the JSON-RPC error object with code -32602; a found tool's
`safe_execute` result always lands in `result` (even when `isError` is
set). -/
def tools_call_response (params : List (String × PyVal)) (id : Option PyVal) : HttpResponse :=
  let tool_name := lookupKey params "name"
  let arguments := match lookupKey params "arguments" with
                   | some (.dict d) => d
                   | _ => []
  let found : Option Tool := match tool_name with
                             | some (.str s) => get_tool s
                             | _ => Option.none
  match found with
  | some t =>
    let result := safe_execute t arguments
    { status_code := 200, headers := protoHeader,
      envelope := { jsonrpc := "2.0",
                    result := some (.dict [("content", contentJson result.content)]),
                    error := Option.none, id := id } }
  | Option.none =>
    { status_code := 200, headers := protoHeader,
      envelope := { jsonrpc := "2.0", result := Option.none,
                    error := some (.dict [("code", .int (-32602)),
                      ("message", .str ("Unknown tool: " ++ pyStrOpt tool_name))]),
                    id := id } }

/-- The `mcp_handler` dispatch (`main.py` lines 272–407): the `if/elif` chain
on `mcp_request.method`.  Each branch builds an `MCPResponse` and returns a
`Response` with status 200 (202 for the notification) and the
`MCP-Protocol-Version` header.  The `tools/call` branch catches the
registry's unknown-tool `ValueError` and maps it to the JSON-RPC error object
with code -32602; a found tool's `safe_execute` result always lands in
`result` (even when `isError` is set).  `user` is only logged, never used in
any response, and is therefore not a parameter of the model. -/
def mcp_handler (req : MCPRequestM) : HttpResponse :=
  if req.method = "initialize" then
    { status_code := 200, headers := protoHeader,
      envelope := { jsonrpc := "2.0", result := some initializeResult,
                    error := Option.none, id := req.id } }
  else if req.method = "notifications/initialized" then
    { status_code := 202, headers := protoHeader,
      envelope := { jsonrpc := "2.0", result := some (.dict []), error := Option.none,
                    id := match req.id with
                          | some v => if pyTruthy v then some v else Option.none
                          | Option.none => Option.none } }
  else if req.method = "tools/list" then
    { status_code := 200, headers := protoHeader,
      envelope := { jsonrpc := "2.0",
                    result := some (.dict [("tools", .list (registryTools.map toolDefJson))]),
                    error := Option.none, id := req.id } }
  else if req.method = "prompts/list" then
    { status_code := 200, headers := protoHeader,
      envelope := { jsonrpc := "2.0", result := some (.dict [("prompts", .list [])]),
                    error := Option.none, id := req.id } }
  else if req.method = "resources/list" then
    { status_code := 200, headers := protoHeader,
      envelope := { jsonrpc := "2.0", result := some (.dict [("resources", .list [])]),
                    error := Option.none, id := req.id } }
  else if req.method = "tools/call" then tools_call_response req.params req.id
  else
    { status_code := 200, headers := protoHeader,
      envelope := { jsonrpc := "2.0", result := Option.none,
                    error := some (.dict [("code", .int (-32601)),
                      ("message", .str ("Method not found: " ++ req.method))]),
                    id := req.id } }

/-- The catch-all `except Exception` response of `mcp_handler`
(`main.py` lines 409–427): status 500, error code -32603, the safe message
from `SecureErrorHandler.get_safe_error_message` and a generated error id,
with the same protocol-version header. -/
def internal_error_response (id : Option PyVal) (message error_id : String) : HttpResponse :=
  { status_code := 500, headers := protoHeader,
    envelope := { jsonrpc := "2.0", result := Option.none,
                  error := some (.dict [("code", .int (-32603)), ("message", .str message),
                    ("data", .dict [("error_id", .str error_id)])]),
                  id := id } }

/-! ## GET/HEAD `/mcp` and the security-header middleware -/

/-- A plain (non-envelope) response: `mcp_get` returns a JSON body built by
FastAPI from the returned dict, `mcp_head` returns `Response()` with no
body.  Neither handler sets any header itself. -/
structure SimpleResponse where
  status_code : Nat
  headers : List (String × String)
  body : Option PyVal

/-- The OAuth2 block appended to the GET metadata for unauthenticated
requests (`main.py` lines 194–202), parameterised by the configured URLs. -/
def oauthBlock (authorization_url token_url client_id : String) (scopes : List String) : PyVal :=
  .dict [("type", .str "oauth2"),
    ("oauth2", .dict [("authorizationUrl", .str authorization_url),
      ("tokenUrl", .str token_url), ("clientId", .str client_id),
      ("scopes", .list (scopes.map .str))])]

/-- `mcp_get` (`main.py` lines 163–207): returns the metadata dict — with the
authentication block when the `Authorization` header is missing or not a
Bearer credential — as a 200 response.  No response header is set by the
handler. -/
def mcp_get (auth_header : Option String)
    (authorization_url token_url client_id : String) (scopes : List String) : SimpleResponse :=
  let authenticated := match auth_header with
                       | some s => s.startsWith "Bearer "
                       | Option.none => false
  let base : List (String × PyVal) :=
    [("mcpVersion", .str "2025-06-18"),
     ("server", .dict [("name", .str "Secure MCP Server"), ("version", .str "1.0.0")]),
     ("capabilities", .dict [("tools", .dict [("listChanged", .bool true)]),
       ("prompts", .dict []), ("resources", .dict [])])]
  { status_code := 200, headers := [],
    body := some (.dict (if authenticated then base
      else base ++ [("authentication", oauthBlock authorization_url token_url client_id scopes)])) }

/-- `mcp_head` (`main.py` lines 210–215): a bare `Response()`. -/
def mcp_head : SimpleResponse :=
  { status_code := 200, headers := [], body := Option.none }

/-- The headers written by `add_security_headers`
(`middleware/security.py` lines 38–75), in source order, including the final
`ngrok-skip-browser-warning` header. -/
def security_header_list : List (String × String) :=
  [("X-Content-Type-Options", "nosniff"),
   ("X-Frame-Options", "DENY"),
   ("X-XSS-Protection", "1; mode=block"),
   ("Strict-Transport-Security", "max-age=31536000; includeSubDomains"),
   ("Content-Security-Policy",
     "default-src \x27self\x27; script-src \x27self\x27; style-src \x27self\x27 \x27unsafe-inline\x27;"),
   ("Referrer-Policy", "strict-origin-when-cross-origin"),
   ("Permissions-Policy", "geolocation=(), microphone=(), camera=()"),
   ("Cache-Control", "no-store, no-cache, must-revalidate, private"),
   ("Pragma", "no-cache"),
   ("Expires", "0"),
   ("ngrok-skip-browser-warning", "true")]

/-- The security-header middleware applied to a handler's header list: each
security header is assigned on the response (none of the handler-set headers
collides with a security-header name or with `server`, so assignment is
appending). -/
def add_security_headers (hs : List (String × String)) : List (String × String) :=
  hs ++ security_header_list

/-! ## Rate-limit client-key derivation (`middleware/rate_limiting.py`) -/

/-- The prefix of a character list before the first comma — Python
`s.split(",")[0]`, which is the whole string when no comma occurs (and `""`
for the empty string, since `"".split(",") == [""]`). -/
def takeUntilComma : List Char → List Char
  | [] => []
  | c :: cs => if c = ',' then [] else c :: takeUntilComma cs

/-- `forwarded_for.split(",")[0].strip()`. -/
def firstForwardedEntry (s : String) : String :=
  pyStrip (String.mk (takeUntilComma s.toList))

/-- Python truthiness of `headers.get(name)`: `None` and the empty string are
falsy. -/
def truthyOptStr : Option String → Bool
  | Option.none => false
  | some s => s ≠ ""

/-- `get_real_client_ip` (`rate_limiting.py` lines 22–49): the truthiness
checks on `X-Forwarded-For` and `X-Real-IP`, falling back to the
transport-layer remote address. -/
def get_real_client_ip (x_forwarded_for x_real_ip : Option String)
    (remote_address : String) : String :=
  if truthyOptStr x_forwarded_for then firstForwardedEntry (x_forwarded_for.getD "")
  else if truthyOptStr x_real_ip then x_real_ip.getD ""
  else remote_address

/-! ## Concrete tokens used in witnesses and counterexamples -/

/-- `noAudToken` with a mismatching audience claim. -/
def audMismatchToken : TokenClaims := { noAudToken with aud := some "other-client" }

/-- A token issued at time 0 and checked at time 100000: more than 24 hours
old (100000 > 86400) but far from its expiry at 200000; every other claim is
valid. -/
def oldToken : TokenClaims :=
  { aud := Option.none, iss := some (expectedIssuer cfg0), exp := some 200000,
    nbf := Option.none, iat := some 0, token_use := some "access",
    scope := some "", sub := some "u1" }

/-- A fresh token that instead lacks a subject claim. -/
def noSubToken : TokenClaims := { oldToken with iat := some 99000, sub := Option.none }

/-- C1: during claim validation the audience is checked only conditionally:
(1) if the decoded claims carry an `aud` value that differs from the
configured client id, verification fails; (2) if the claims carry no `aud`,
the configured client id is never consulted (audience verification is
skipped entirely); and (3) verification of an `aud`-less token can succeed
outright. -/
theorem audience_check_conditional :
    (∀ (c : TokenClaims) (sigOk : Bool) (cfg : CognitoConfig) (rs : List String) (now : Int)
        (a : String), c.aud = some a → cfg.client_id ≠ some a →
        ∃ e, validate_cognito_token c sigOk cfg rs now = .error e)
    ∧ (∀ (c : TokenClaims) (sigOk : Bool) (cfg : CognitoConfig) (rs : List String) (now : Int)
        (i j : Option String), c.aud = Option.none →
        validate_cognito_token c sigOk { cfg with client_id := i } rs now
          = validate_cognito_token c sigOk { cfg with client_id := j } rs now)
    ∧ validate_cognito_token noAudToken true cfg0 [] 1000 = .ok noAudToken := by
  refine ⟨?_, ?_, ?_⟩
  · intro c sigOk cfg rs now a haud hne
    have hdec : ∃ e, decodeStep c sigOk cfg now = .error e := by
      unfold decodeStep
      split
      · exact ⟨_, rfl⟩
      split
      · exact ⟨_, rfl⟩
      split
      · exact ⟨_, rfl⟩
      split
      · exact ⟨_, rfl⟩
      · rw [haud]
        cases hc : cfg.client_id with
        | none => exact ⟨_, rfl⟩
        | some cid =>
          by_cases hac : a = cid
          · exact absurd (by rw [hc, hac]) hne
          · simp only [if_neg hac]
            exact ⟨_, rfl⟩
    obtain ⟨e, he⟩ := hdec
    exact ⟨e, by unfold validate_cognito_token; rw [he]⟩
  · intro c sigOk cfg rs now i j haud
    obtain ⟨aud, iss, exp, nbf, iat, tu, sc, su⟩ := c
    cases haud
    rfl
  · rfl

/-- Witness for C1: a token whose `aud` is `"other-client"` fails against a
configuration whose client id is `"client123"`, and for an `aud`-less token
the configured client id is irrelevant. -/
theorem audience_check_conditional_witness :
    (∃ e, validate_cognito_token audMismatchToken true cfg0 [] 1000 = .error e)
    ∧ validate_cognito_token audMismatchToken true { cfg0 with client_id := some "x" } [] 1000
        = validate_cognito_token audMismatchToken true { cfg0 with client_id := some "x" } [] 1000 :=
  ⟨audience_check_conditional.1 audMismatchToken true cfg0 [] 1000 "other-client" rfl
      (by decide),
   rfl⟩

/-- C2 counterexample: a token issued at 0 and validated at 100000 (more than
24 hours later, yet well before its expiry 200000) is rejected — but the
error finally raised is the generic
`InvalidTokenError("Token security validation failed")`, byte-for-byte the
same error produced for a token rejected for a different policy reason
(missing subject).  The distinct too-old cause exists only inside the policy
block (`securityChecks`) before the `except Exception` handler of
`cognito.py` lines 177–179 collapses it, so verification does not fail with
a distinct `TokenTooOld` kind. -/
theorem token_too_old_kind_not_distinct :
    validate_cognito_token oldToken true cfg0 [] 100000
        = .error (.invalidToken "Token security validation failed")
    ∧ validate_cognito_token noSubToken true cfg0 [] 100000
        = .error (.invalidToken "Token security validation failed")
    ∧ securityChecks oldToken [] 100000 = .error .tokenTooOld
    ∧ securityChecks noSubToken [] 100000 = .error .missingSubject
    ∧ (100000 : Int) - 0 > 86400 ∧ (100000 : Int) < 200000 :=
  ⟨rfl, rfl, rfl, rfl, by decide, by decide⟩

/-- C2 (amended): for every token more than 86400 seconds past its issued-at
claim that passes signature/issuer/expiry/not-before validation and the
earlier policy gates (token use, scopes, subject), the age check rejects the
token: the policy block fails with the internal `tokenTooOld` cause, and
`validate_cognito_token` surfaces it wrapped as the generic
`InvalidTokenError("Token security validation failed")`. -/
theorem token_age_check_rejects_old_tokens (c : TokenClaims) (sigOk : Bool)
    (cfg : CognitoConfig) (rs : List String) (now : Int)
    (hdec : decodeStep c sigOk cfg now = .ok c)
    (huse : token_use_ok c = true)
    (hscope : scope_insufficient c rs = false)
    (hsub : sub_falsy c = false)
    (hold : too_old c now = true) :
    securityChecks c rs now = .error .tokenTooOld
    ∧ validate_cognito_token c sigOk cfg rs now
        = .error (.invalidToken "Token security validation failed") := by
  have hsec : securityChecks c rs now = .error .tokenTooOld := by
    simp [securityChecks, huse, hscope, hsub, hold]
  refine ⟨hsec, ?_⟩
  unfold validate_cognito_token
  rw [hdec]
  show wrapPolicy (securityChecks c rs now) = _
  rw [hsec]
  rfl

/-- Witness for C2 (amended), at the concrete `oldToken` of the
counterexample. -/
theorem token_age_check_rejects_old_tokens_witness :
    securityChecks oldToken [] 100000 = .error .tokenTooOld
    ∧ validate_cognito_token oldToken true cfg0 [] 100000
        = .error (.invalidToken "Token security validation failed") :=
  token_age_check_rejects_old_tokens oldToken true cfg0 [] 100000 rfl rfl rfl rfl
    (by decide)

/-! ## Dispatcher claims -/

/-- A concrete `initialize` request carrying id 1. -/
def initReq : MCPRequestM := { method := "initialize", params := [], id := some (.int 1) }

/-- An id-less `notifications/initialized` request with the given params. -/
def notifReqWith (params : List (String × PyVal)) : MCPRequestM :=
  { method := "notifications/initialized", params := params, id := Option.none }

/-- A concrete `notifications/initialized` request with no id. -/
def notifReq : MCPRequestM := notifReqWith []

/-- A `tools/call` request with the given params and id. -/
def toolsCallReq (params : List (String × PyVal)) (id : Option PyVal) : MCPRequestM :=
  { method := "tools/call", params := params, id := id }

/-- A concrete `tools/call` request naming the unregistered tool `"nope"`. -/
def callNopeReq : MCPRequestM := toolsCallReq [("name", .str "nope")] (some (.int 7))

/-- Both branches of the `tools/call` dispatch set exactly one of
`result`/`error`. -/
theorem tools_call_result_error_xor (params : List (String × PyVal)) (id : Option PyVal) :
    (tools_call_response params id).envelope.result.isSome
      = !(tools_call_response params id).envelope.error.isSome := by
  unfold tools_call_response
  dsimp only
  split <;> rfl

/-- Both branches of the `tools/call` dispatch use the standard header set. -/
theorem tools_call_headers (params : List (String × PyVal)) (id : Option PyVal) :
    (tools_call_response params id).headers = protoHeader := by
  unfold tools_call_response
  dsimp only
  split <;> rfl

/-- C3 counterexample: the completed `initialize` response serializes BOTH the
`result` and the `error` field — pydantic's `model_dump_json` emits `None`
fields as JSON `null` — so it is not the case that exactly one of the two
fields is present in the serialized body.  (The unused `error` field is
serialized as `null`.) -/
theorem envelope_both_fields_serialized :
    (mcp_handler initReq).status_code = 200
    ∧ "result" ∈ (model_dump (mcp_handler initReq).envelope).map Prod.fst
    ∧ "error" ∈ (model_dump (mcp_handler initReq).envelope).map Prod.fst
    ∧ lookupKey (model_dump (mcp_handler initReq).envelope) "error" = some PyVal.none :=
  ⟨rfl, by decide, by decide, rfl⟩

/-- C3 (amended): for every request, the envelope produced by the dispatcher
has exactly one of `result`/`error` non-null (the other is `None`, serialized
as JSON `null`); the serialized body always contains all four keys
`jsonrpc`, `result`, `error`, `id`.  The catch-all internal-error response
satisfies the same invariant. -/
theorem envelope_exactly_one_non_null :
    (∀ req : MCPRequestM,
        (mcp_handler req).envelope.result.isSome = !(mcp_handler req).envelope.error.isSome)
    ∧ (∀ (id : Option PyVal) (msg eid : String),
        (internal_error_response id msg eid).envelope.result.isSome
          = !(internal_error_response id msg eid).envelope.error.isSome)
    ∧ (∀ req : MCPRequestM,
        (model_dump (mcp_handler req).envelope).map Prod.fst
          = ["jsonrpc", "result", "error", "id"]) := by
  refine ⟨?_, ?_, ?_⟩
  · intro req
    unfold mcp_handler
    repeat' split
    all_goals first
      | rfl
      | exact tools_call_result_error_xor req.params req.id
  · intro id msg eid
    rfl
  · intro req
    rfl

/-- C4 counterexample: for the id-less `notifications/initialized` request
the dispatcher does answer with status 202, but the serialized response body
DOES carry an `id` field — pydantic serializes the `None` id as
`"id": null` — so the body is not id-free as claimed. -/
theorem notification_id_serialized_null :
    (mcp_handler notifReq).status_code = 202
    ∧ "id" ∈ (model_dump (mcp_handler notifReq).envelope).map Prod.fst
    ∧ lookupKey (model_dump (mcp_handler notifReq).envelope) "id" = some PyVal.none :=
  ⟨rfl, by decide, rfl⟩

/-- C4 (amended): every id-less `notifications/initialized` request is
acknowledged with status 202 and an envelope whose id value is `None` — no
id value is echoed — though the serialized body still contains the `id` key
with JSON value `null`. -/
theorem notification_ack_202_null_id (params : List (String × PyVal)) :
    (mcp_handler (notifReqWith params)).status_code = 202
    ∧ (mcp_handler (notifReqWith params)).envelope.id = Option.none
    ∧ lookupKey (model_dump (mcp_handler (notifReqWith params)).envelope) "id"
        = some PyVal.none :=
  ⟨rfl, rfl, rfl⟩

/-- C5: a `tools/call` request naming a tool absent from the registry yields
HTTP status 200 carrying the JSON-RPC error object with the invalid-params
code -32602 and no `result`; the dispatcher returns normally (the model is a
total function), so no exception propagates and no 500 is produced. -/
theorem unknown_tool_protocol_error (params : List (String × PyVal)) (id : Option PyVal)
    (s : String) (hname : lookupKey params "name" = some (.str s))
    (hnot : get_tool s = Option.none) :
    (mcp_handler (toolsCallReq params id)).status_code = 200
    ∧ (mcp_handler (toolsCallReq params id)).envelope.error
        = some (.dict [("code", .int (-32602)),
            ("message", .str ("Unknown tool: " ++ s))])
    ∧ (mcp_handler (toolsCallReq params id)).envelope.result = Option.none := by
  have hb : mcp_handler (toolsCallReq params id) = tools_call_response params id := rfl
  rw [hb]
  simp [tools_call_response, pyStrOpt, pyStr, hname, hnot]

/-- Witness for C5: calling the unregistered tool `"nope"`. -/
theorem unknown_tool_protocol_error_witness :
    (mcp_handler callNopeReq).status_code = 200
    ∧ (mcp_handler callNopeReq).envelope.error
        = some (.dict [("code", .int (-32602)),
            ("message", .str ("Unknown tool: " ++ "nope"))])
    ∧ (mcp_handler callNopeReq).envelope.result = Option.none :=
  unknown_tool_protocol_error [("name", .str "nope")] (some (.int 7)) "nope" rfl rfl

/-- C6 counterexample: the GET and HEAD `/mcp` handlers set no
`MCP-Protocol-Version` header, and the security-header middleware does not
add one either, so those `/mcp` responses lack the protocol-version header
(GET carries the version only inside its JSON body). -/
theorem protocol_version_header_missing_on_get_head :
    "MCP-Protocol-Version"
        ∉ (add_security_headers
            (mcp_get Option.none "https://auth.example" "https://token.example" "cid"
              ["openid"]).headers).map Prod.fst
    ∧ "MCP-Protocol-Version" ∉ (add_security_headers mcp_head.headers).map Prod.fst := by
  exact ⟨by decide, by decide⟩

/-- C6 (amended): every response of the POST `/mcp` handler — every dispatch
branch and the catch-all internal-error path — carries the
`MCP-Protocol-Version: 2025-06-18` header (preserved by the security-header
middleware), while the GET and HEAD `/mcp` handlers never set that header. -/
theorem protocol_version_header_on_post :
    (∀ req : MCPRequestM,
        ("MCP-Protocol-Version", "2025-06-18")
          ∈ add_security_headers (mcp_handler req).headers)
    ∧ (∀ (id : Option PyVal) (msg eid : String),
        ("MCP-Protocol-Version", "2025-06-18")
          ∈ add_security_headers (internal_error_response id msg eid).headers)
    ∧ (∀ (ah : Option String) (au tu ci : String) (sc : List String),
        "MCP-Protocol-Version"
          ∉ (add_security_headers (mcp_get ah au tu ci sc).headers).map Prod.fst)
    ∧ "MCP-Protocol-Version" ∉ (add_security_headers mcp_head.headers).map Prod.fst := by
  have hh : ∀ req : MCPRequestM, (mcp_handler req).headers = protoHeader := by
    intro req
    unfold mcp_handler
    repeat' split
    all_goals first
      | rfl
      | exact tools_call_headers req.params req.id
  refine ⟨?_, ?_, ?_, by decide⟩
  · intro req
    rw [hh req]
    decide
  · intro id msg eid
    show ("MCP-Protocol-Version", "2025-06-18") ∈ add_security_headers protoHeader
    decide
  · intro ah au tu ci sc
    show "MCP-Protocol-Version"
        ∉ (add_security_headers ([] : List (String × String))).map Prod.fst
    decide

/-! ## Rate-limit key derivation claims -/

/-- C7 counterexample: with `X-Forwarded-For` present but empty, the derived
key is NOT the trimmed first comma-separated entry of that header (which
would be the empty string): the code's truthiness test skips the empty header
and returns the `X-Real-IP` value instead. -/
theorem empty_forwarded_header_falls_through :
    get_real_client_ip (some "") (some "10.0.0.1") "9.9.9.9" = "10.0.0.1"
    ∧ firstForwardedEntry "" = ""
    ∧ get_real_client_ip (some "") (some "10.0.0.1") "9.9.9.9" ≠ firstForwardedEntry "" :=
  ⟨by decide, by decide, by decide⟩

/-- C7 (amended): the derived client key is the trimmed first comma-separated
entry of `X-Forwarded-For` when that header is present and NON-EMPTY;
otherwise the `X-Real-IP` value when present and non-empty; otherwise the
transport-layer remote address. -/
theorem client_key_derivation (xff xrip : Option String) (remote : String) :
    (∀ s : String, xff = some s → s ≠ "" →
        get_real_client_ip xff xrip remote = firstForwardedEntry s)
    ∧ (∀ r : String, (xff = Option.none ∨ xff = some "") → xrip = some r → r ≠ "" →
        get_real_client_ip xff xrip remote = r)
    ∧ ((xff = Option.none ∨ xff = some "") → (xrip = Option.none ∨ xrip = some "") →
        get_real_client_ip xff xrip remote = remote) := by
  refine ⟨?_, ?_, ?_⟩
  · intro s hs hne
    subst hs
    simp [get_real_client_ip, truthyOptStr, hne]
  · intro r hx hr hne
    subst hr
    rcases hx with h | h <;> subst h <;>
      simp [get_real_client_ip, truthyOptStr, hne]
  · intro hx hr
    rcases hx with h | h <;> rcases hr with h2 | h2 <;> subst h <;> subst h2 <;>
      simp [get_real_client_ip, truthyOptStr]

/-- Witness for C7 (amended): the three priority levels at concrete headers,
including whitespace trimming of the first forwarded entry. -/
theorem client_key_derivation_witness :
    get_real_client_ip (some " 1.2.3.4 , 5.6.7.8") (some "10.0.0.1") "9.9.9.9" = "1.2.3.4"
    ∧ get_real_client_ip Option.none (some "10.0.0.1") "9.9.9.9" = "10.0.0.1"
    ∧ get_real_client_ip (some "") Option.none "9.9.9.9" = "9.9.9.9" :=
  ⟨by
     rw [(client_key_derivation (some " 1.2.3.4 , 5.6.7.8") (some "10.0.0.1")
        "9.9.9.9").1 " 1.2.3.4 , 5.6.7.8" rfl (by decide)]
     decide,
   (client_key_derivation Option.none (some "10.0.0.1") "9.9.9.9").2.1 "10.0.0.1"
     (Or.inl rfl) rfl (by decide),
   (client_key_derivation (some "") Option.none "9.9.9.9").2.2 (Or.inr rfl) (Or.inl rfl)⟩

/-! ## Tool contract claims -/

/-- C8: through `safe_execute`, the add tool with `a=2, b=3` returns a
non-error result whose text is `"2 + 3 = 5"`, and with `a="x", b=1` it
returns an error-flagged result (the validation `ValueError` is caught and
converted — `safe_execute` is total, so no exception reaches the caller). -/
theorem add_tool_contract :
    safe_execute addTool [("a", .int 2), ("b", .int 3)]
      = { content := textContent "2 + 3 = 5", isError := false }
    ∧ safe_execute addTool [("a", .str "x"), ("b", .int 1)]
      = { content := textContent "Validation error: Field \x27a\x27 must be a number",
          isError := true } :=
  ⟨by decide, by decide⟩

/-- C9: a Python `bool` is an instance of `int`, so boolean values satisfy
the `"number"` type check of schema validation and the add tool's own
isinstance guard: `a=True, b=3` validates, executes, and yields the
non-error text `"True + 3 = 4"`. -/
theorem bool_passes_number_checks :
    pyIsNumber (.bool true) = true ∧ pyIsNumber (.bool false) = true
    ∧ validate_arguments add_input_schema [("a", .bool true), ("b", .int 3)]
        = .ok [("a", .bool true), ("b", .int 3)]
    ∧ safe_execute addTool [("a", .bool true), ("b", .int 3)]
        = { content := textContent "True + 3 = 4", isError := false } :=
  ⟨rfl, rfl, rfl, by decide⟩

/-- `checkFields` returns the argument list unchanged whenever every field
passes its (possibly vacuous) type check. -/
theorem checkFields_all_ok (props : List (String × PyVal)) :
    ∀ args : List (String × PyVal),
      (∀ kv ∈ args, fieldError props kv.1 kv.2 = Option.none) →
      checkFields props args = .ok args := by
  intro args
  induction args with
  | nil => intro _; rfl
  | cons hd tl ih =>
    obtain ⟨k, v⟩ := hd
    intro h
    have hk : fieldError props k v = Option.none := h (k, v) (List.mem_cons_self _ _)
    have htl : checkFields props tl = .ok tl :=
      ih (fun kv hm => h kv (List.mem_cons_of_mem _ hm))
    simp [checkFields, hk, htl]

/-- C10: argument fields whose names are not among the schema's `properties`
are never rejected by `validate_arguments` — `fieldError` is vacuous for
unknown names — and when validation succeeds the whole argument dict,
unknown fields included, is passed through unchanged to the handler. -/
theorem unknown_fields_passed_through :
    (∀ (props : List (String × PyVal)) (k : String) (v : PyVal),
        lookupKey props k = Option.none → fieldError props k v = Option.none)
    ∧ (∀ (schema : PyVal) (args : List (String × PyVal)),
        ((requiredNames schema).filter (fun f => (lookupKey args f).isNone)).isEmpty = true →
        (∀ kv ∈ args, fieldError (propertiesOf schema) kv.1 kv.2 = Option.none) →
        validate_arguments schema args = .ok args) := by
  constructor
  · intro props k v h
    unfold fieldError
    rw [h]
  · intro schema args hreq hok
    unfold validate_arguments
    dsimp only
    rw [hreq]
    simpa using checkFields_all_ok (propertiesOf schema) args hok

/-- Witness for C10: the add schema accepts the unknown extra field
`"extra"` and passes it through unchanged next to the validated ones. -/
theorem unknown_fields_passed_through_witness :
    validate_arguments add_input_schema
        [("a", .int 1), ("b", .int 2), ("extra", .str "zzz")]
      = .ok [("a", .int 1), ("b", .int 2), ("extra", .str "zzz")] :=
  unknown_fields_passed_through.2 add_input_schema
    [("a", .int 1), ("b", .int 2), ("extra", .str "zzz")] (by decide) (by decide)

end MCPServer
